import Mathlib

/-!
Shallow embedding of the SeirChain distributed-consensus core
(`src/core/TriadMatrix.js`, `src/network/P2PNode.js`, `src/ledger/ledgerSync.js`)
and theorems checking the natural-language specification against it.

JavaScript numbers are modelled as real numbers; `Math.sqrt`/`Math.floor`
become `Real.sqrt`/`Int.floor`.  The asynchronous methods are modelled as
pure state transformers: each `async` method is a function from the current
`MatrixState` (or `NodeState`) and its inputs to an `Except`-wrapped new
state plus return value.  Nondeterministic inputs of the source
(`crypto.randomBytes` ids, `Date.now()`, `Math.random()` samples) are taken
as explicit parameters.
-/

namespace SeirChain

open scoped Classical

/-- A 3-D position, `{x, y, z}` in `calculateOptimalPosition`. -/
structure Position where
  x : ℝ
  y : ℝ
  z : ℝ

/-- Triad payload: the source accepts a non-null object or a string
(`validateTriadData`).  `null`/`undefined` is `nullData`; an object is
modelled by its list of field names (only `Object.keys(data).length`
is inspected). -/
inductive TriadData where
  | strData (s : String)
  | objData (fields : List String)
  | nullData

/-- The triad record built in `createTriad`. -/
structure Triad where
  id : String
  data : TriadData
  validator : String
  timestamp : ℕ
  position : Position
  connections : List String
  validated : Bool
  consensus : ℝ
  validationAttempts : ℕ

/-- The `matrix:state_metadata` record written by `saveMatrixState`. -/
structure StateMetadata where
  dimensions : ℝ
  complexity : ℝ
  consensusThreshold : ℝ
  validators : List String
  lastUpdated : ℕ
  triadsCount : ℕ
  validatedTriadsCount : ℕ

/-- The mutable state of a `TriadMatrix` instance together with its LevelDB
contents: `matrix` and `triads` are the in-memory mirrors (flat list and
id-indexed map), `dbTriads` the persisted `triad:<id>` records and `dbMeta`
the persisted `matrix:state_metadata` record. -/
structure MatrixState where
  dimensions : ℝ
  complexity : ℝ
  consensusThreshold : ℝ
  matrix : List Triad
  triads : List (String × Triad)
  validators : List String
  isInitialized : Bool
  dbTriads : List (String × Triad)
  dbMeta : Option StateMetadata

/-- Errors thrown by the store (`TriadMatrix` throws `Error` objects; we
distinguish them by their origin). -/
inductive MatrixError where
  | notInitialized
  | invalidData (msg : String)
  | invalidValidator (msg : String)
  | notFound (id : String)
deriving DecidableEq

/-- Key lookup in an association list, the behaviour of `Map.get` /
`db.get` on the modelled key space. -/
def lookupAssoc {α : Type} : List (String × α) → String → Option α
  | [], _ => none
  | p :: ps, k => if p.1 == k then some p.2 else lookupAssoc ps k

/-- Key upsert in an association list, the behaviour of `Map.set` /
`db.put` (replace the entry if the key is present, append otherwise). -/
def updateAssoc {α : Type} : List (String × α) → String → α → List (String × α)
  | [], k, v => [(k, v)]
  | p :: ps, k, v => if p.1 == k then (k, v) :: ps else p :: updateAssoc ps k v

/-- `validateTriadData`: rejects falsy data (`null`/`undefined`/the empty
string), and objects with zero fields. -/
def validateTriadData (data : TriadData) : Except MatrixError Unit :=
  match data with
  | .nullData => .error (.invalidData "Invalid data format for triad")
  | .strData s =>
      if s = "" then .error (.invalidData "Invalid data format for triad")
      else .ok ()
  | .objData fields =>
      if fields.length = 0 then .error (.invalidData "Triad data object cannot be empty")
      else .ok ()

/-- `validateValidator`: rejects a falsy (empty) id and an
all-whitespace id (`validatorId.trim().length === 0` holds exactly when
every character of the id is whitespace). -/
def validateValidator (validatorId : String) : Except MatrixError Unit :=
  if validatorId = "" then
    .error (.invalidValidator "Validator ID cannot be null or undefined")
  else if validatorId.data.all Char.isWhitespace then
    .error (.invalidValidator "Validator ID cannot be empty")
  else .ok ()

/-- `calculateDistance`: Euclidean distance between two positions. -/
noncomputable def calculateDistance (pos1 pos2 : Position) : ℝ :=
  Real.sqrt ((pos1.x - pos2.x) ^ 2 + (pos1.y - pos2.y) ^ 2 + (pos1.z - pos2.z) ^ 2)

/-- `calculateOptimalPosition`: each axis is `Math.floor(Math.random() * dimensions)`;
the three uniform samples `rx, ry, rz` are explicit parameters. -/
noncomputable def calculateOptimalPosition (dimensions : ℝ) (rx ry rz : ℝ) : Position :=
  { x := (⌊rx * dimensions⌋ : ℤ)
    y := (⌊ry * dimensions⌋ : ℤ)
    z := (⌊rz * dimensions⌋ : ℤ) }

/-- `getTriadConnections`: all *other* triads of the in-memory `matrix`
whose distance to the subject is positive and at most `complexity`. -/
noncomputable def getTriadConnections (s : MatrixState) (triad : Triad) : List Triad :=
  s.matrix.filter (fun t =>
    if t.id == triad.id then false
    else
      let distance := calculateDistance t.position triad.position
      decide (distance ≤ s.complexity ∧ 0 < distance))

/-- `calculateConnectionScore`: `0` beyond the `complexity` radius, else
`max(0, 1 - distance/complexity)`. -/
noncomputable def calculateConnectionScore (s : MatrixState) (triad1 triad2 : Triad) : ℝ :=
  let distance := calculateDistance triad1.position triad2.position
  if distance > s.complexity then 0
  else max 0 (1 - distance / s.complexity)

/-- `calculateConsensus`: `0` for an unregistered validator; otherwise the
base score `0.7` plus, when neighbors exist, `0.3` times the average of the
per-neighbor connection scores (halved for unvalidated neighbors), the
total clamped by `Math.min(1, ·)`. -/
noncomputable def calculateConsensus (s : MatrixState) (triad : Triad)
    (currentValidatorId : String) : ℝ :=
  if currentValidatorId ∈ s.validators then
    let consensusScore : ℝ := 0.7
    let connections := getTriadConnections s triad
    if connections.length > 0 then
      let validationScores := connections.map (fun conn =>
        if conn.validated then calculateConnectionScore s triad conn
        else 0.5 * calculateConnectionScore s triad conn)
      let connectionScore := validationScores.sum / (validationScores.length : ℝ)
      min 1 (consensusScore + connectionScore * 0.3)
    else
      min 1 consensusScore
  else 0

/-- The `stateMetadata` object computed by `saveMatrixState` from the
current in-memory state (`lastUpdated` is the `Date.now()` parameter). -/
def mkStateMetadata (s : MatrixState) (now : ℕ) : StateMetadata :=
  { dimensions := s.dimensions
    complexity := s.complexity
    consensusThreshold := s.consensusThreshold
    validators := s.validators
    lastUpdated := now
    triadsCount := s.matrix.length
    validatedTriadsCount := (s.matrix.filter (fun t => t.validated)).length }

/-- `saveMatrixState`: rewrites `matrix:state_metadata` in the store. -/
def saveMatrixState (s : MatrixState) (now : ℕ) : MatrixState :=
  { s with dbMeta := some (mkStateMetadata s now) }

/-- `getTriadById`: requires initialization and a non-empty id, then reads
the persisted `triad:<id>` record (`this.db.get`, which yields a fresh
deserialized copy, not the in-memory mirror object). -/
def getTriadById (s : MatrixState) (triadId : String) : Except MatrixError Triad :=
  if s.isInitialized = false then .error .notInitialized
  else if triadId = "" then .error (.invalidData "Invalid triad ID provided")
  else
    match lookupAssoc s.dbTriads triadId with
    | some triad => .ok triad
    | none => .error (.notFound triadId)

/-- `createTriad`: validates inputs, builds the fresh record, pushes it to
both in-memory mirrors, persists it, then rewrites the metadata record —
all before returning.  `freshId`, `now` and the three position samples are
the nondeterministic inputs of the source. -/
noncomputable def createTriad (s : MatrixState) (data : TriadData) (validator : String)
    (freshId : String) (now : ℕ) (rx ry rz : ℝ) :
    Except MatrixError (MatrixState × Triad) :=
  if s.isInitialized = false then .error .notInitialized
  else
    match validateTriadData data, validateValidator validator with
    | .error e, _ => .error e
    | .ok _, .error e => .error e
    | .ok _, .ok _ =>
      let triad : Triad :=
        { id := freshId
          data := data
          validator := validator
          timestamp := now
          position := calculateOptimalPosition s.dimensions rx ry rz
          connections := []
          validated := false
          consensus := 0
          validationAttempts := 0 }
      let s1 : MatrixState :=
        { s with
          matrix := s.matrix ++ [triad]
          triads := updateAssoc s.triads triad.id triad
          dbTriads := updateAssoc s.dbTriads triad.id triad }
      .ok (saveMatrixState s1 now, triad)

/-- `validateTriad`: no-op on an already-validated triad; otherwise stores
the recomputed consensus and incremented attempt counter in the persisted
`triad:<id>` record (the in-memory mirrors and the metadata record are not
touched by this method). -/
noncomputable def validateTriad (s : MatrixState) (triadId validatorId : String) :
    Except MatrixError (MatrixState × Triad) :=
  if s.isInitialized = false then .error .notInitialized
  else
    match getTriadById s triadId, validateValidator validatorId with
    | .error e, _ => .error e
    | .ok _, .error e => .error e
    | .ok triad, .ok _ =>
      if triad.validated then .ok (s, triad)
      else
        let consensusScore := calculateConsensus s triad validatorId
        let triad' : Triad :=
          { triad with
            consensus := consensusScore
            validationAttempts := triad.validationAttempts + 1
            validated := decide (consensusScore ≥ s.consensusThreshold) }
        .ok ({ s with dbTriads := updateAssoc s.dbTriads triadId triad' }, triad')

/-- `addValidator`: validates the id, returns `false` if already
registered; otherwise registers it in the in-memory set and returns `true`.
The source fires `saveMatrixState().catch(...)` without awaiting it, so at
the moment the call returns, the persisted metadata record has not been
rewritten; the state returned here is the state at acknowledgment time. -/
def addValidator (s : MatrixState) (validatorId : String) :
    Except MatrixError (MatrixState × Bool) :=
  match validateValidator validatorId with
  | .error e => .error e
  | .ok _ =>
    if validatorId ∈ s.validators then .ok (s, false)
    else .ok ({ s with validators := s.validators ++ [validatorId] }, true)

/-- One run of a list of `validateTriad` calls (pairs of triad id and
validator id), keeping the current state when a call throws. -/
noncomputable def runValidations (s : MatrixState) (calls : List (String × String)) :
    MatrixState :=
  calls.foldl (fun st c =>
    match validateTriad st c.1 c.2 with
    | .ok (st', _) => st'
    | .error _ => st) s

/-- `validateDimensions` / `validateComplexity` / `validateConsensusThreshold`
receive an arbitrary JavaScript option value: a number, or something of
another type. -/
inductive JSOption where
  | num (x : ℝ)
  | strOpt (s : String)
  | boolOpt (b : Bool)
  | undef

/-- `validateDimensions`: non-numbers and values `≤ 0` fall back to the
default `3`; every other number is kept. -/
noncomputable def validateDimensions (dimensions : JSOption) : ℝ :=
  match dimensions with
  | .num x => if x ≤ 0 then 3 else x
  | _ => 3

/-- `validateComplexity`: non-numbers and values `≤ 0` fall back to the
default `4`; every other number is kept. -/
noncomputable def validateComplexity (complexity : JSOption) : ℝ :=
  match complexity with
  | .num x => if x ≤ 0 then 4 else x
  | _ => 4

/-- `validateConsensusThreshold`: non-numbers and values outside `(0, 1]`
fall back to the default `0.67`; every other number is kept. -/
noncomputable def validateConsensusThreshold (threshold : JSOption) : ℝ :=
  match threshold with
  | .num x => if x ≤ 0 ∨ x > 1 then 0.67 else x
  | _ => 0.67

/-! ### Network layer: `src/network/P2PNode.js` and `src/ledger/ledgerSync.js` -/

/-- A peer entry of the `peers` map built by `addPeer`:
`{ ws, id, direction, url, connectedAt }` (the WebSocket handle itself is
not part of the protocol state). -/
structure PeerInfo where
  id : String
  direction : String
  url : Option String
  connectedAt : ℕ
deriving DecidableEq

/-- The ledger-database collaborator consumed by `syncLedger`
(`isOpenForNewUsers()` and `updateLedger(ledgerData)`; the outcome of
awaiting `updateLedger` on a given batch is modelled as a function to
`Except`). -/
structure LedgerConnection where
  isOpenForNewUsers : Bool
  updateLedger : String → Except String Unit

/-- The result object of `syncLedger`. -/
structure SyncResult where
  status : String
deriving DecidableEq

/-- `syncLedger` (`src/ledger/ledgerSync.js`): throws when the database is
not open for new users, otherwise forwards the batch to `updateLedger` and
resolves with `{status: "success"}`, re-throwing an update failure. -/
def syncLedger (dbConnection : LedgerConnection) (ledgerData : String) :
    Except String SyncResult :=
  if dbConnection.isOpenForNewUsers = false then
    .error "Database is not open for new users"
  else
    match dbConnection.updateLedger ledgerData with
    | .ok _ => .ok { status := "success" }
    | .error e => .error e

/-- The protocol state of a `P2PNode`: its peer map, cap, advertised
address (`getPublicAddress`) and optional ledger-database connection.
Triad-event plumbing (`NEW_TRIAD` etc.) is dispatched to handlers that are
not among the files under src/ and is outside the modelled state. -/
structure NodeState where
  nodeId : String
  peers : List (String × PeerInfo)
  maxPeers : ℕ
  advertisedAddress : String
  dbConnection : Option LedgerConnection

/-- The wire envelopes `{type, payload}` relevant to the modelled
handlers.  `unknownType` stands for any type string outside the switch's
cases, answered by the `default` branch. -/
inductive PMessage where
  | handshake (nodeId : String)
  | discovery
  | peersMsg (addrs : List String)
  | errorMsg (msg : String)
  | syncLedgerMsg (ledgerData : String)
  | syncLedgerConfirmation (status : String)
  | unknownType (typeName : String)

/-- Result of one `handleMessage` invocation: the new node state, the
replies sent back on the same connection, and whether the connection was
terminated by the handler. -/
structure HandleResult where
  state : NodeState
  replies : List PMessage
  terminated : Bool

/-- Modelled from the spec: `getPeerAddresses` is called by the
`DISCOVERY` branch of `handleMessage` but its definition is not among the
files under src/.  Per the spec, the requester "is sent the current peer
address list (`PEERS`)" "containing at least the responder's own
advertised address": the node's advertised address followed by the known
peer URLs. -/
def getPeerAddresses (s : NodeState) : List String :=
  s.advertisedAddress :: s.peers.filterMap (fun p => p.2.url)

/-- Modelled from the spec: `isConnectedTo` is called by `connectToPeer`
but its definition is not among the files under src/.  Per the spec an
outbound connection is refused "to a peer already connected": some peer
entry carries that URL. -/
def isConnectedTo (s : NodeState) (peerAddress : String) : Bool :=
  s.peers.any (fun p => p.2.url == some peerAddress)

/-- `addPeer`: inserts the peer entry into the `peers` map and returns the
id. -/
def addPeer (s : NodeState) (peerId direction : String) (url : Option String)
    (now : ℕ) : NodeState :=
  { s with peers := updateAssoc s.peers peerId ⟨peerId, direction, url, now⟩ }

/-- `removePeer` / `handlePeerDisconnection`: deletes the peer entry. -/
def removePeer (s : NodeState) (peerId : String) : NodeState :=
  { s with peers := s.peers.filter (fun p => !(p.1 == peerId)) }

/-- `handleNewConnection`: an inbound connection arriving when the peer
map already holds `maxPeers` entries is terminated without being added
(`false`); otherwise the peer is added under a fresh id (`true`). -/
def handleNewConnection (s : NodeState) (freshPeerId : String) (now : ℕ) :
    NodeState × Bool :=
  if s.peers.length ≥ s.maxPeers then (s, false)
  else (addPeer s freshPeerId "incoming" none now, true)

/-- `connectToPeer`: refuses when the cap is reached or the address is
already connected; otherwise the outbound socket is opened and, on its
`open` event, added to the peer map (the two are collapsed into one
sequential step here). -/
def connectToPeer (s : NodeState) (peerAddress : String) (freshPeerId : String)
    (now : ℕ) : NodeState :=
  if s.peers.length ≥ s.maxPeers then s
  else if isConnectedTo s peerAddress then s
  else addPeer s freshPeerId "outgoing" (some peerAddress) now

/-- `handleMessage`: dispatch on the envelope type.  A message from an
unknown peer id terminates the socket.  Branches whose handler bodies are
not among the files under src/ (`HANDSHAKE`, `PEERS`) are modelled per the
spec: `HANDSHAKE` only acknowledges the peer, `PEERS` attempts
`connectToPeer` on each received address (fresh outbound ids are supplied
as a parameter list). -/
def handleMessage (s : NodeState) (peerId : String) (msg : PMessage)
    (freshIds : List String) (now : ℕ) : HandleResult :=
  match lookupAssoc s.peers peerId with
  | none => { state := s, replies := [], terminated := true }
  | some _ =>
    match msg with
    | .handshake _ => { state := s, replies := [], terminated := false }
    | .discovery =>
        { state := s
          replies := [.peersMsg (getPeerAddresses s)]
          terminated := false }
    | .peersMsg addrs =>
        { state := (addrs.zip freshIds).foldl
            (fun st c => connectToPeer st c.1 c.2 now) s
          replies := []
          terminated := false }
    | .errorMsg _ => { state := s, replies := [], terminated := false }
    | .syncLedgerMsg ledgerData =>
        match s.dbConnection with
        | none =>
            { state := s
              replies := [.errorMsg "Database connection not available for ledger sync"]
              terminated := false }
        | some conn =>
            match syncLedger conn ledgerData with
            | .ok result =>
                { state := s
                  replies := [.syncLedgerConfirmation result.status]
                  terminated := false }
            | .error e =>
                { state := s
                  replies := [.errorMsg e]
                  terminated := false }
    | .syncLedgerConfirmation _ =>
        { state := s
          replies := [.errorMsg "Unknown message type: SYNC_LEDGER_CONFIRMATION"]
          terminated := false }
    | .unknownType typeName =>
        { state := s
          replies := [.errorMsg ("Unknown message type: " ++ typeName)]
          terminated := false }

/-! ### Concrete states used by witnesses and counterexamples -/

/-- The origin position. -/
def posO : Position := ⟨0, 0, 0⟩

/-- A position at distance `1` from the origin. -/
def posX : Position := ⟨1, 0, 0⟩

/-- An unvalidated triad at the origin. -/
def triadA : Triad :=
  { id := "a", data := .strData "payload", validator := "v1", timestamp := 0,
    position := posO, connections := [], validated := false, consensus := 0,
    validationAttempts := 0 }

/-- An unvalidated triad at distance `1` from `triadA`. -/
def triadB : Triad :=
  { id := "b", data := .strData "payload", validator := "v1", timestamp := 0,
    position := posX, connections := [], validated := false, consensus := 0,
    validationAttempts := 0 }

/-- `triadA` after a successful first validation at score `0.7`. -/
def triadAVal : Triad :=
  { triadA with consensus := 0.7, validationAttempts := 1, validated := true }

/-- An initialized matrix (default configuration) holding exactly `triadA`,
with `"v2"` registered. -/
def stateOne : MatrixState :=
  { dimensions := 3, complexity := 4, consensusThreshold := 0.67,
    matrix := [triadA], triads := [("a", triadA)], validators := ["v2"],
    isInitialized := true, dbTriads := [("a", triadA)], dbMeta := none }

/-- An initialized matrix holding `triadA` and its neighbor `triadB`, with
`"v2"` registered (and `"ghost"` not). -/
def stateTwo : MatrixState :=
  { dimensions := 3, complexity := 4, consensusThreshold := 0.67,
    matrix := [triadA, triadB], triads := [("a", triadA), ("b", triadB)],
    validators := ["v2"], isInitialized := true,
    dbTriads := [("a", triadA), ("b", triadB)], dbMeta := none }

/-- An empty initialized matrix with `"v1"` registered. -/
def stateEmpty : MatrixState :=
  { dimensions := 3, complexity := 4, consensusThreshold := 0.67,
    matrix := [], triads := [], validators := ["v1"],
    isInitialized := true, dbTriads := [], dbMeta := none }

/-- A connected peer entry. -/
def peerP1 : PeerInfo := ⟨"p1", "incoming", none, 0⟩

/-- A node with one connected peer and no ledger connection. -/
def nodeOne : NodeState :=
  { nodeId := "n", peers := [("p1", peerP1)], maxPeers := 10,
    advertisedAddress := "ws://localhost:6001", dbConnection := none }

/-- A ledger connection that is closed for new users. -/
def ledgerClosed : LedgerConnection :=
  ⟨false, fun _ => .ok ()⟩

/-- A ledger connection that is open and whose update succeeds. -/
def ledgerOpenOk : LedgerConnection :=
  ⟨true, fun _ => .ok ()⟩

/-- A ledger connection that is open and whose update fails. -/
def ledgerOpenFail : LedgerConnection :=
  ⟨true, fun _ => .error "update failed"⟩

/-- `nodeOne` equipped with a given ledger connection. -/
def nodeWithLedger (conn : LedgerConnection) : NodeState :=
  { nodeOne with dbConnection := some conn }

/-- A node already at its peer cap (`maxPeers = 1` with one peer). -/
def nodeFull : NodeState :=
  { nodeId := "n", peers := [("p1", ⟨"p1", "outgoing", some "ws://peer1", 0⟩)],
    maxPeers := 1, advertisedAddress := "ws://localhost:6001",
    dbConnection := none }

/-- `stateOne` as left by `validateTriad triadA.id "v2"`: only the persisted
record changed. -/
def stateOnePost : MatrixState := { stateOne with dbTriads := [("a", triadAVal)] }

/-- The triad built by `createTriad` on `stateEmpty` with samples
`rx = ry = rz = 1/2` (so each coordinate is `⌊3/2⌋ = 1`). -/
def triadC : Triad :=
  { id := "c", data := .strData "payload", validator := "v1", timestamp := 0,
    position := ⟨1, 1, 1⟩, connections := [], validated := false, consensus := 0,
    validationAttempts := 0 }

/-- The metadata record written by that `createTriad` call. -/
def metaEmptyPost : StateMetadata :=
  { dimensions := 3, complexity := 4, consensusThreshold := 0.67,
    validators := ["v1"], lastUpdated := 0, triadsCount := 1,
    validatedTriadsCount := 0 }

/-- `stateEmpty` after that `createTriad` call. -/
def stateEmptyPost : MatrixState :=
  { dimensions := 3, complexity := 4, consensusThreshold := 0.67,
    matrix := [triadC], triads := [("c", triadC)], validators := ["v1"],
    isInitialized := true, dbTriads := [("c", triadC)],
    dbMeta := some metaEmptyPost }

/-- The metadata record written by `createTriad` run on `stateOne`. -/
def metaOneCreate : StateMetadata :=
  { dimensions := 3, complexity := 4, consensusThreshold := 0.67,
    validators := ["v2"], lastUpdated := 0, triadsCount := 2,
    validatedTriadsCount := 0 }

/-- `stateOne` after `createTriad (.strData "payload") "v1"` with fresh id
`"c"` and samples `1/2`. -/
def stateOneCreate : MatrixState :=
  { dimensions := 3, complexity := 4, consensusThreshold := 0.67,
    matrix := [triadA, triadC], triads := [("a", triadA), ("c", triadC)],
    validators := ["v2"], isInitialized := true,
    dbTriads := [("a", triadA), ("c", triadC)], dbMeta := some metaOneCreate }

/-- `stateOne` at the moment `addValidator "v9"` returns `true` (the
metadata save has been fired but not awaited). -/
def stateOneAddV : MatrixState := { stateOne with validators := ["v2", "v9"] }

/-- Whether an optional stored triad record carries `validated = true`. -/
def storedValidated : Option Triad → Bool
  | some t => t.validated
  | none => false

/-! ### Association-list lemmas -/

/-- Updating a key then looking it up yields the new value. -/
theorem lookupAssoc_updateAssoc_self {α : Type} (l : List (String × α)) (k : String) (v : α) :
    lookupAssoc (updateAssoc l k v) k = some v := by
  induction l with
  | nil => simp [updateAssoc, lookupAssoc]
  | cons p ps ih =>
    by_cases h : p.1 == k
    · simp [updateAssoc, h, lookupAssoc]
    · simp [updateAssoc, h, lookupAssoc, ih]

/-- Updating one key leaves lookups of other keys unchanged. -/
theorem lookupAssoc_updateAssoc_ne {α : Type} (l : List (String × α)) (k k' : String) (v : α)
    (h : k' ≠ k) : lookupAssoc (updateAssoc l k v) k' = lookupAssoc l k' := by
  have hk : (k == k') = false := by
    simp only [beq_eq_false_iff_ne]
    exact fun e => h e.symm
  induction l with
  | nil => simp [updateAssoc, lookupAssoc, hk]
  | cons p ps ih =>
    by_cases hp : p.1 == k
    · have hp1 : p.1 = k := by simpa using hp
      simp [updateAssoc, hp, lookupAssoc, hk, hp1]
    · simp [updateAssoc, hp, lookupAssoc, ih]

/-- An upsert grows the association list by at most one entry. -/
theorem updateAssoc_length_le {α : Type} (l : List (String × α)) (k : String) (v : α) :
    (updateAssoc l k v).length ≤ l.length + 1 := by
  induction l with
  | nil => simp [updateAssoc]
  | cons p ps ih =>
    by_cases h : p.1 == k
    · simp [updateAssoc, h]
    · simp only [updateAssoc]
      rw [if_neg (by simpa using h)]
      simp only [List.length_cons]
      omega

/-! ### C9: constructor configuration validation -/

/-- C9 counterexample: the claim says a `dimensions` value that is not an
integer greater than 0 is replaced by the default 3, but the constructor
only checks `typeof` and `<= 0`: the non-integer `5/2` is kept unchanged
(and differs from 3). -/
theorem c9_noninteger_kept_counterexample :
    validateDimensions (.num (5 / 2)) = 5 / 2 ∧
    (∀ k : ℤ, (5 / 2 : ℝ) ≠ (k : ℝ)) ∧
    validateDimensions (.num (5 / 2)) ≠ 3 := by
  refine ⟨?_, ?_, ?_⟩
  · simp only [validateDimensions]
    norm_num
  · intro k h
    have h2 : (5 : ℝ) = 2 * (k : ℝ) := by
      rw [div_eq_iff (by norm_num : (2:ℝ) ≠ 0)] at h
      linarith
    have h3 : (5 : ℤ) = 2 * k := by exact_mod_cast h2
    omega
  · simp only [validateDimensions]
    norm_num

/-- C9 amended: an option value that is not a number, or a number out of
range (`≤ 0` for dimensions/complexity, outside `(0, 1]` for the
threshold), falls back to the documented default; every other number —
integrality is never checked — is kept unchanged. -/
theorem c9_config_fallback_amended (x : ℝ) (st : String) (b : Bool) :
    (0 < x → validateDimensions (.num x) = x ∧ validateComplexity (.num x) = x) ∧
    (x ≤ 0 → validateDimensions (.num x) = 3 ∧ validateComplexity (.num x) = 4) ∧
    (0 < x ∧ x ≤ 1 → validateConsensusThreshold (.num x) = x) ∧
    ((x ≤ 0 ∨ 1 < x) → validateConsensusThreshold (.num x) = 0.67) ∧
    (validateDimensions .undef = 3 ∧ validateComplexity .undef = 4 ∧
      validateConsensusThreshold .undef = 0.67) ∧
    (validateDimensions (.strOpt st) = 3 ∧ validateComplexity (.strOpt st) = 4 ∧
      validateConsensusThreshold (.strOpt st) = 0.67) ∧
    (validateDimensions (.boolOpt b) = 3 ∧ validateComplexity (.boolOpt b) = 4 ∧
      validateConsensusThreshold (.boolOpt b) = 0.67) := by
  refine ⟨?_, ?_, ?_, ?_, ?_, ?_, ?_⟩
  · intro hx
    constructor <;> · simp only [validateDimensions, validateComplexity]
                      rw [if_neg (by linarith)]
  · intro hx
    constructor <;> · simp only [validateDimensions, validateComplexity]
                      rw [if_pos hx]
  · rintro ⟨hx0, hx1⟩
    simp only [validateConsensusThreshold]
    rw [if_neg (by push_neg; exact ⟨by linarith, by linarith⟩)]
  · intro hx
    simp only [validateConsensusThreshold]
    rcases hx with hx | hx
    · rw [if_pos (Or.inl hx)]
    · rw [if_pos (Or.inr hx)]
  · exact ⟨rfl, rfl, rfl⟩
  · exact ⟨rfl, rfl, rfl⟩
  · exact ⟨rfl, rfl, rfl⟩

/-- C9 witness: valid values are kept and out-of-range values replaced, at
concrete inputs. -/
theorem c9_config_fallback_amended_witness :
    (validateDimensions (.num 5) = 5 ∧ validateComplexity (.num 5) = 5) ∧
    validateConsensusThreshold (.num (1 / 2)) = 1 / 2 ∧
    validateConsensusThreshold (.num 2) = 0.67 :=
  ⟨(c9_config_fallback_amended 5 "" true).1 (by norm_num),
   (c9_config_fallback_amended (1 / 2) "" true).2.2.1 ⟨by norm_num, by norm_num⟩,
   (c9_config_fallback_amended 2 "" true).2.2.2.1 (Or.inr (by norm_num))⟩

/-! ### C10: placement coordinates -/

/-- Helper: `⌊(1/2 : ℝ)⌋ = 0`. -/
theorem floor_half_eq_zero : ⌊(1 / 2 : ℝ)⌋ = 0 := by
  rw [Int.floor_eq_zero_iff]
  constructor <;> norm_num

/-- Helper: `⌊(1/2 : ℝ) * 3⌋ = 1`. -/
theorem floor_three_halves_eq_one : ⌊(1 / 2 : ℝ) * 3⌋ = 1 := by
  rw [show (1 / 2 : ℝ) * 3 = 3 / 2 by norm_num]
  rw [Int.floor_eq_iff]
  constructor <;> norm_num

/-- C10: every triad returned by `createTriad` has floored integer
coordinates, each in `{0, …, d-1}` when the matrix is configured with
natural dimensions `d` and the uniform samples lie in `[0, 1)`; collisions
are possible (two distinct sample triples give the same position). -/
theorem c10_position_floored (s : MatrixState) (data : TriadData)
    (validator freshId : String) (now : ℕ) (rx ry rz : ℝ) (d : ℕ)
    (s' : MatrixState) (t : Triad)
    (hd : s.dimensions = (d : ℝ)) (hd0 : 0 < d)
    (hrx0 : 0 ≤ rx) (hrx1 : rx < 1) (hry0 : 0 ≤ ry) (hry1 : ry < 1)
    (hrz0 : 0 ≤ rz) (hrz1 : rz < 1)
    (hok : createTriad s data validator freshId now rx ry rz = .ok (s', t)) :
    (t.position.x = ((⌊rx * (d : ℝ)⌋ : ℤ) : ℝ) ∧
      0 ≤ ⌊rx * (d : ℝ)⌋ ∧ ⌊rx * (d : ℝ)⌋ < (d : ℤ)) ∧
    (t.position.y = ((⌊ry * (d : ℝ)⌋ : ℤ) : ℝ) ∧
      0 ≤ ⌊ry * (d : ℝ)⌋ ∧ ⌊ry * (d : ℝ)⌋ < (d : ℤ)) ∧
    (t.position.z = ((⌊rz * (d : ℝ)⌋ : ℤ) : ℝ) ∧
      0 ≤ ⌊rz * (d : ℝ)⌋ ∧ ⌊rz * (d : ℝ)⌋ < (d : ℤ)) ∧
    calculateOptimalPosition 3 0 0 0 = calculateOptimalPosition 3 (1/6) (1/6) (1/6) := by
  have hdpos : (0 : ℝ) < (d : ℝ) := by exact_mod_cast hd0
  have hbound : ∀ r : ℝ, 0 ≤ r → r < 1 →
      0 ≤ ⌊r * (d : ℝ)⌋ ∧ ⌊r * (d : ℝ)⌋ < (d : ℤ) := by
    intro r hr0 hr1
    constructor
    · exact Int.floor_nonneg.mpr (mul_nonneg hr0 (le_of_lt hdpos))
    · rw [Int.floor_lt]
      push_cast
      calc r * (d : ℝ) < 1 * (d : ℝ) := by
            exact mul_lt_mul_of_pos_right hr1 hdpos
        _ = (d : ℝ) := one_mul _
  have hpos : t.position = calculateOptimalPosition s.dimensions rx ry rz := by
    simp only [createTriad] at hok
    split at hok
    · exact absurd hok (by simp)
    · split at hok
      · exact absurd hok (by simp)
      · exact absurd hok (by simp)
      · simp only [Except.ok.injEq, Prod.mk.injEq] at hok
        rw [← hok.2]
  have hcoll : calculateOptimalPosition 3 0 0 0 =
      calculateOptimalPosition 3 (1/6) (1/6) (1/6) := by
    have h16 : (1 / 6 : ℝ) * 3 = 1 / 2 := by norm_num
    simp only [calculateOptimalPosition, h16, floor_half_eq_zero, zero_mul,
      Int.floor_zero]
  refine ⟨?_, ?_, ?_, hcoll⟩ <;>
    simp only [hpos, calculateOptimalPosition, hd]
  · exact ⟨trivial, hbound rx hrx0 hrx1⟩
  · exact ⟨trivial, hbound ry hry0 hry1⟩
  · exact ⟨trivial, hbound rz hrz0 hrz1⟩

/-- Helper: the concrete `createTriad` run on `stateEmpty` with samples
`1/2`, producing `triadC` at position `(1,1,1)` and the rewritten
metadata. -/
theorem createTriad_stateEmpty :
    createTriad stateEmpty (.strData "payload") "v1" "c" 0 (1/2) (1/2) (1/2) =
      .ok (stateEmptyPost, triadC) := by
  have h1 : validateTriadData (.strData "payload") = .ok () := rfl
  have h2 : validateValidator "v1" = .ok () := rfl
  have hfloor : calculateOptimalPosition (3 : ℝ) (1/2) (1/2) (1/2) =
      (⟨1, 1, 1⟩ : Position) := by
    simp only [calculateOptimalPosition, floor_three_halves_eq_one]
    norm_num
  simp only [createTriad, stateEmpty]
  norm_num [h1, h2, hfloor, updateAssoc, saveMatrixState, mkStateMetadata,
    stateEmptyPost, metaEmptyPost, triadC, List.filter]

/-- C10 witness: the bounds at the concrete run (`d = 3`, samples `1/2`). -/
theorem c10_position_floored_witness :
    (triadC.position.x = ((⌊(1/2 : ℝ) * (3 : ℕ)⌋ : ℤ) : ℝ) ∧
      0 ≤ ⌊(1/2 : ℝ) * ((3 : ℕ) : ℝ)⌋ ∧ ⌊(1/2 : ℝ) * ((3 : ℕ) : ℝ)⌋ < ((3 : ℕ) : ℤ)) ∧
    (triadC.position.y = ((⌊(1/2 : ℝ) * (3 : ℕ)⌋ : ℤ) : ℝ) ∧
      0 ≤ ⌊(1/2 : ℝ) * ((3 : ℕ) : ℝ)⌋ ∧ ⌊(1/2 : ℝ) * ((3 : ℕ) : ℝ)⌋ < ((3 : ℕ) : ℤ)) ∧
    (triadC.position.z = ((⌊(1/2 : ℝ) * (3 : ℕ)⌋ : ℤ) : ℝ) ∧
      0 ≤ ⌊(1/2 : ℝ) * ((3 : ℕ) : ℝ)⌋ ∧ ⌊(1/2 : ℝ) * ((3 : ℕ) : ℝ)⌋ < ((3 : ℕ) : ℤ)) ∧
    calculateOptimalPosition 3 0 0 0 = calculateOptimalPosition 3 (1/6) (1/6) (1/6) :=
  c10_position_floored stateEmpty (.strData "payload") "v1" "c" 0
    (1/2) (1/2) (1/2) 3 stateEmptyPost triadC
    (by norm_num [stateEmpty]) (by norm_num)
    (by norm_num) (by norm_num) (by norm_num) (by norm_num) (by norm_num) (by norm_num)
    createTriad_stateEmpty

/-! ### C3: first validation of a lone triad by a registered validator -/

/-- Helper: a lone triad has no connections (the filter excludes the
subject itself). -/
theorem getTriadConnections_single (s : MatrixState) (A : Triad)
    (hmat : s.matrix = [A]) : getTriadConnections s A = [] := by
  simp [getTriadConnections, hmat, List.filter]

/-- Helper: with no other triads, a registered validator's score is the
bare base term `0.7`. -/
theorem calculateConsensus_single (s : MatrixState) (A : Triad) (v : String)
    (hmat : s.matrix = [A]) (hreg : v ∈ s.validators) :
    calculateConsensus s A v = 0.7 := by
  simp only [calculateConsensus]
  rw [if_pos hreg]
  simp [getTriadConnections_single s A hmat]
  norm_num

/-- C3: with `dimensions=3, complexity=4, consensusThreshold=0.67`, a
registered validator's first `validateTriad` call on the only triad of the
matrix returns the record with `consensus = 0.7`, `validated = true`,
`validationAttempts = 1`, persisting exactly that record. -/
theorem c3_single_triad_first_validation (s : MatrixState) (A : Triad) (v2 : String)
    (hdim : s.dimensions = 3) (hcomp : s.complexity = 4)
    (hthr : s.consensusThreshold = 0.67)
    (hmat : s.matrix = [A]) (hdb : s.dbTriads = [(A.id, A)])
    (hreg : v2 ∈ s.validators) (hinit : s.isInitialized = true)
    (hA : A.validated = false) (hA0 : A.validationAttempts = 0)
    (hid : A.id ≠ "") (hv : validateValidator v2 = .ok ()) :
    validateTriad s A.id v2 =
      .ok ({ s with dbTriads := updateAssoc s.dbTriads A.id ({ A with consensus := 0.7, validationAttempts := 1, validated := true }) },
           { A with consensus := 0.7, validationAttempts := 1, validated := true }) := by
  have hget : getTriadById s A.id = .ok A := by
    simp [getTriadById, hinit, hid, hdb, lookupAssoc]
  have hcons := calculateConsensus_single s A v2 hmat hreg
  simp only [validateTriad, hinit, hget, hv, hA, hcons, hA0, hthr]
  simp only [Bool.false_eq_true, if_false, Except.ok.injEq, Prod.mk.injEq,
    MatrixState.mk.injEq, Triad.mk.injEq, decide_eq_true_eq]
  norm_num

/-- C3 witness: the concrete run on `stateOne`. -/
theorem c3_single_triad_first_validation_witness :
    validateTriad stateOne triadA.id "v2" =
      .ok ({ stateOne with dbTriads := updateAssoc stateOne.dbTriads triadA.id ({ triadA with consensus := 0.7, validationAttempts := 1, validated := true }) },
           { triadA with consensus := 0.7, validationAttempts := 1, validated := true }) :=
  c3_single_triad_first_validation stateOne triadA "v2"
    rfl rfl rfl rfl rfl (by simp [stateOne]) rfl rfl rfl
    (by simp [triadA]) rfl

/-! ### C2: validation by an unregistered validator -/

/-- Helper: the distance between `triadB` and `triadA` is `1`. -/
theorem dist_triadB_triadA : calculateDistance triadB.position triadA.position = 1 := by
  simp only [calculateDistance, triadB, triadA, posX, posO]
  norm_num

/-- Helper: an unregistered validator's score is `0` (the early return of
`calculateConsensus`). -/
theorem calculateConsensus_unregistered (s : MatrixState) (t : Triad) (vid : String)
    (hreg : vid ∉ s.validators) : calculateConsensus s t vid = 0 := by
  simp only [calculateConsensus]
  rw [if_neg hreg]

/-- C2 counterexample: in a matrix where `triadB` lies at distance
`1 ∈ (0, complexity]` of the subject `triadA`, the unregistered validator
`"ghost"` still gets `consensus = 0`: the neighbor term (which the claim
says contributes `0.3 · (0.5 · (1 − 1/4)) = 9/80 ≠ 0`) is not applied. -/
theorem c2_neighbor_term_counterexample :
    validateTriad stateTwo "a" "ghost" =
      .ok ({ stateTwo with dbTriads := updateAssoc stateTwo.dbTriads "a" ({ triadA with consensus := 0, validationAttempts := 1, validated := false }) },
           { triadA with consensus := 0, validationAttempts := 1, validated := false }) ∧
    calculateDistance triadB.position triadA.position = 1 ∧
    (0 : ℝ) < 1 ∧ (1 : ℝ) ≤ stateTwo.complexity ∧
    0.3 * (0.5 * (1 - calculateDistance triadB.position triadA.position / stateTwo.complexity)) = 9 / 80 ∧
    (9 / 80 : ℝ) ≠ 0 := by
  refine ⟨?_, dist_triadB_triadA, by norm_num, by norm_num [stateTwo], ?_, by norm_num⟩
  · have hget : getTriadById stateTwo "a" = .ok triadA := by
      simp [getTriadById, stateTwo, lookupAssoc]
    have hv : validateValidator "ghost" = .ok () := rfl
    have hcons : calculateConsensus stateTwo triadA "ghost" = 0 :=
      calculateConsensus_unregistered stateTwo triadA "ghost" (by simp [stateTwo])
    have hA : triadA.validated = false := rfl
    simp only [validateTriad, hget, hv, hA, hcons]
    simp only [Bool.false_eq_true, if_false, Except.ok.injEq, Prod.mk.injEq,
      MatrixState.mk.injEq, Triad.mk.injEq, decide_eq_false_iff_not, stateTwo, triadA]
    norm_num
  · rw [dist_triadB_triadA]
    norm_num [stateTwo]

/-- C2 amended: for every unvalidated stored triad and well-formed
validator id not in the registry, `validateTriad` increments
`validationAttempts` by exactly 1 but sets `consensus = 0` regardless of
neighbors (the `calculateConsensus` early return skips the neighbor term
entirely), and the triad stays unvalidated whenever the threshold is
positive. -/
theorem c2_unregistered_consensus_amended (s : MatrixState) (tid vid : String) (t : Triad)
    (hinit : s.isInitialized = true) (htid : tid ≠ "")
    (hdb : lookupAssoc s.dbTriads tid = some t) (hval : t.validated = false)
    (hv : validateValidator vid = .ok ()) (hreg : vid ∉ s.validators)
    (hthr : 0 < s.consensusThreshold) :
    validateTriad s tid vid =
      .ok ({ s with dbTriads := updateAssoc s.dbTriads tid ({ t with consensus := 0, validationAttempts := t.validationAttempts + 1, validated := false }) },
           { t with consensus := 0, validationAttempts := t.validationAttempts + 1, validated := false }) := by
  have hget : getTriadById s tid = .ok t := by
    simp [getTriadById, hinit, htid, hdb]
  have hcons := calculateConsensus_unregistered s t vid hreg
  simp only [validateTriad, hinit, hget, hv, hval, hcons]
  have hdec : decide ((0 : ℝ) ≥ s.consensusThreshold) = false := by
    simp only [decide_eq_false_iff_not, ge_iff_le, not_le]
    exact hthr
  rw [hdec]
  simp

/-- C2 amended witness: the concrete `"ghost"` run on `stateTwo`. -/
theorem c2_unregistered_consensus_amended_witness :
    validateTriad stateTwo "a" "ghost" =
      .ok ({ stateTwo with dbTriads := updateAssoc stateTwo.dbTriads "a" ({ triadA with consensus := 0, validationAttempts := triadA.validationAttempts + 1, validated := false }) },
           { triadA with consensus := 0, validationAttempts := triadA.validationAttempts + 1, validated := false }) :=
  c2_unregistered_consensus_amended stateTwo "a" "ghost" triadA
    rfl (by simp) rfl rfl rfl (by simp [stateTwo]) (by norm_num [stateTwo])

/-! ### C4: a validated triad is terminal -/

/-- Helper: inversion of a successful `getTriadById`. -/
theorem getTriadById_ok_lookup (s : MatrixState) (tid : String) (t : Triad)
    (h : getTriadById s tid = .ok t) : lookupAssoc s.dbTriads tid = some t := by
  simp only [getTriadById] at h
  split at h
  · simp at h
  · split at h
    · simp at h
    · rcases hl : lookupAssoc s.dbTriads tid with _ | t'
      · rw [hl] at h
        simp at h
      · rw [hl] at h
        simp only [Except.ok.injEq] at h
        rw [h]

/-- Helper: one (successful) `validateTriad` call keeps every stored
record that was already validated present and validated. -/
theorem validateTriad_step_validated (s s' : MatrixState) (a b k : String) (r t : Triad)
    (hok : validateTriad s a b = .ok (s', r))
    (hk : lookupAssoc s.dbTriads k = some t) (ht : t.validated = true) :
    ∃ t1, lookupAssoc s'.dbTriads k = some t1 ∧ t1.validated = true := by
  simp only [validateTriad] at hok
  split at hok
  · simp at hok
  · split at hok
    · simp at hok
    · simp at hok
    · rename_i triad u hget hval
      split at hok
      · simp only [Except.ok.injEq, Prod.mk.injEq] at hok
        exact ⟨t, hok.1 ▸ hk, ht⟩
      · rename_i hnotval
        simp only [Except.ok.injEq, Prod.mk.injEq] at hok
        by_cases hka : k = a
        · subst hka
          have hlk : lookupAssoc s.dbTriads k = some triad :=
            getTriadById_ok_lookup s k triad hget
          rw [hk] at hlk
          simp only [Option.some.injEq] at hlk
          rw [← hlk] at hnotval
          exact absurd ht hnotval
        · refine ⟨t, ?_, ht⟩
          rw [← hok.1]
          simpa [lookupAssoc_updateAssoc_ne s.dbTriads a k _ hka] using hk

/-- Helper: `runValidations` on a cons. -/
theorem runValidations_cons (s : MatrixState) (c : String × String)
    (cs : List (String × String)) :
    runValidations s (c :: cs) =
      runValidations
        (match validateTriad s c.1 c.2 with
         | .ok (st', _) => st'
         | .error _ => s) cs := rfl

/-- Helper: any sequence of `validateTriad` calls keeps every stored
validated record present and validated. -/
theorem runValidations_preserves_validated (calls : List (String × String))
    (s : MatrixState) (k : String) (t : Triad)
    (hk : lookupAssoc s.dbTriads k = some t) (ht : t.validated = true) :
    storedValidated (lookupAssoc (runValidations s calls).dbTriads k) = true := by
  induction calls generalizing s t with
  | nil =>
    simp only [runValidations, List.foldl_nil]
    rw [hk]
    exact ht
  | cons c cs ih =>
    rw [runValidations_cons]
    rcases hstep : validateTriad s c.1 c.2 with e | p
    · exact ih s t hk ht
    · obtain ⟨s1, r⟩ := p
      obtain ⟨t1, h1, hv1⟩ := validateTriad_step_validated s s1 c.1 c.2 k r t hstep hk ht
      exact ih s1 t1 h1 hv1

/-- C4: calling `validateTriad` on an already-validated triad is a no-op
returning the stored record unchanged (no recomputation, no write), and no
sequence of `validateTriad` calls ever reverts a stored `validated = true`
flag. -/
theorem c4_validated_terminal (s : MatrixState) (tid vid : String) (t : Triad)
    (calls : List (String × String)) (tid0 : String) (t0 : Triad)
    (hinit : s.isInitialized = true) (htid : tid ≠ "")
    (hdb : lookupAssoc s.dbTriads tid = some t) (hval : t.validated = true)
    (hv : validateValidator vid = .ok ())
    (h0 : lookupAssoc s.dbTriads tid0 = some t0) (ht0 : t0.validated = true) :
    validateTriad s tid vid = .ok (s, t) ∧
    storedValidated (lookupAssoc (runValidations s calls).dbTriads tid0) = true := by
  constructor
  · have hget : getTriadById s tid = .ok t := by
      simp [getTriadById, hinit, htid, hdb]
    simp [validateTriad, hinit, hget, hv, hval]
  · exact runValidations_preserves_validated calls s tid0 t0 h0 ht0

/-- C4 witness: the no-op and the preservation at the concrete state
holding the validated `triadAVal`. -/
theorem c4_validated_terminal_witness :
    validateTriad stateOnePost "a" "v2" = .ok (stateOnePost, triadAVal) ∧
    storedValidated
      (lookupAssoc (runValidations stateOnePost [("a", "ghost")]).dbTriads "a") = true :=
  c4_validated_terminal stateOnePost "a" "v2" triadAVal [("a", "ghost")] "a" triadAVal
    rfl (by simp) rfl rfl rfl rfl rfl

/-! ### C1: write-through of mirrors and metadata -/

/-- Helper: the concrete `validateTriad` run on `stateOne` (registered
validator, first attempt). -/
theorem validateTriad_stateOne_eval :
    validateTriad stateOne "a" "v2" = .ok (stateOnePost, triadAVal) := by
  have hget : getTriadById stateOne "a" = .ok triadA := by
    simp [getTriadById, stateOne, lookupAssoc]
  have hv : validateValidator "v2" = .ok () := rfl
  have hcons : calculateConsensus stateOne triadA "v2" = 0.7 :=
    calculateConsensus_single stateOne triadA "v2" rfl (by simp [stateOne])
  have hA : triadA.validated = false := rfl
  simp only [validateTriad, hget, hv, hA, hcons]
  have hdec : decide ((0.7 : ℝ) ≥ stateOne.consensusThreshold) = true := by
    simp only [decide_eq_true_eq, ge_iff_le]
    norm_num [stateOne]
  rw [hdec]
  simp [stateOne, stateOnePost, triadAVal, triadA, updateAssoc]

/-- Helper: the concrete `createTriad` run on `stateOne`. -/
theorem createTriad_stateOne :
    createTriad stateOne (.strData "payload") "v1" "c" 0 (1/2) (1/2) (1/2) =
      .ok (stateOneCreate, triadC) := by
  have h1 : validateTriadData (.strData "payload") = .ok () := rfl
  have h2 : validateValidator "v1" = .ok () := rfl
  have hfloor : calculateOptimalPosition (3 : ℝ) (1/2) (1/2) (1/2) =
      (⟨1, 1, 1⟩ : Position) := by
    simp only [calculateOptimalPosition, floor_three_halves_eq_one]
    norm_num
  simp only [createTriad, stateOne]
  norm_num [h1, h2, hfloor, updateAssoc, saveMatrixState, mkStateMetadata,
    stateOneCreate, metaOneCreate, triadC, triadA, List.filter]
  decide

/-- Helper: the concrete `addValidator` run on `stateOne`: it returns
`true` with the validator registered in memory, the metadata write still
pending. -/
theorem addValidator_stateOne :
    addValidator stateOne "v9" = .ok (stateOneAddV, true) := by
  have h2 : validateValidator "v9" = .ok () := rfl
  simp [addValidator, h2, stateOne, stateOneAddV]

/-- C1 counterexample: after the successful `validateTriad` run on
`stateOne`, the persisted record has `consensus = 0.7`, `attempts = 1`,
`validated = true`, while the in-memory mirror entry for the same id still
holds the old record (`consensus = 0`, `attempts = 0`, unvalidated), and
the metadata record was not rewritten. -/
theorem c1_mirror_stale_counterexample :
    validateTriad stateOne "a" "v2" = .ok (stateOnePost, triadAVal) ∧
    lookupAssoc stateOnePost.dbTriads "a" = some triadAVal ∧
    lookupAssoc stateOnePost.triads "a" = some triadA ∧
    triadAVal.consensus = 0.7 ∧ triadAVal.validationAttempts = 1 ∧
    triadAVal.validated = true ∧
    triadA.consensus = 0 ∧ triadA.validationAttempts = 0 ∧
    triadA.validated = false ∧
    stateOnePost.dbMeta = none ∧
    triadAVal ≠ triadA := by
  refine ⟨validateTriad_stateOne_eval, rfl, rfl, rfl, rfl, rfl, rfl, rfl, rfl, rfl, ?_⟩
  intro h
  have hcontr := congrArg Triad.validated h
  simp [triadAVal, triadA] at hcontr

/-- C1 amended: `createTriad` does write through the id-indexed mirror and
rewrite the metadata before returning; but `validateTriad` changes only
the persisted `triad:<id>` record, leaving both mirrors and the metadata
untouched (so the mirror entry goes stale); and `addValidator`
acknowledges before the metadata write completes, leaving the persisted
metadata unchanged at return time. -/
theorem c1_write_through_amended (s : MatrixState) (data : TriadData)
    (creator freshId : String) (now : ℕ) (rx ry rz : ℝ)
    (tid vid wid : String) (sC sV sW : MatrixState) (tC tV : Triad) (bW : Bool)
    (hmirror : s.dbTriads = s.triads)
    (hC : createTriad s data creator freshId now rx ry rz = .ok (sC, tC))
    (hV : validateTriad s tid vid = .ok (sV, tV))
    (hW : addValidator s wid = .ok (sW, bW)) :
    (sC.dbTriads = sC.triads ∧ sC.dbMeta = some (mkStateMetadata sC now)) ∧
    (sV.triads = s.triads ∧ sV.matrix = s.matrix ∧ sV.dbMeta = s.dbMeta) ∧
    sW.dbMeta = s.dbMeta := by
  refine ⟨?_, ?_, ?_⟩
  · simp only [createTriad] at hC
    split at hC
    · simp at hC
    · split at hC
      · simp at hC
      · simp at hC
      · simp only [Except.ok.injEq, Prod.mk.injEq] at hC
        rw [← hC.1]
        constructor
        · simp [saveMatrixState, hmirror]
        · simp [saveMatrixState, mkStateMetadata]
  · simp only [validateTriad] at hV
    split at hV
    · simp at hV
    · split at hV
      · simp at hV
      · simp at hV
      · split at hV
        · simp only [Except.ok.injEq, Prod.mk.injEq] at hV
          rw [← hV.1]
          exact ⟨rfl, rfl, rfl⟩
        · simp only [Except.ok.injEq, Prod.mk.injEq] at hV
          rw [← hV.1]
          exact ⟨rfl, rfl, rfl⟩
  · simp only [addValidator] at hW
    split at hW
    · simp at hW
    · split at hW
      · simp only [Except.ok.injEq, Prod.mk.injEq] at hW
        rw [← hW.1]
      · simp only [Except.ok.injEq, Prod.mk.injEq] at hW
        rw [← hW.1]

/-- C1 amended witness: the three concrete runs on `stateOne`. -/
theorem c1_write_through_amended_witness :
    ((stateOneCreate.dbTriads = stateOneCreate.triads ∧
      stateOneCreate.dbMeta = some (mkStateMetadata stateOneCreate 0)) ∧
     (stateOnePost.triads = stateOne.triads ∧ stateOnePost.matrix = stateOne.matrix ∧
      stateOnePost.dbMeta = stateOne.dbMeta) ∧
     stateOneAddV.dbMeta = stateOne.dbMeta) :=
  c1_write_through_amended stateOne (.strData "payload") "v1" "c" 0 (1/2) (1/2) (1/2)
    "a" "v2" "v9" stateOneCreate stateOnePost stateOneAddV triadC triadAVal true
    rfl createTriad_stateOne validateTriad_stateOne_eval addValidator_stateOne

/-! ### C5: the registered-validator score lies in [0.7, 1] -/

/-- Helper: a connection score lies in `[0, 1]` when `complexity` is
positive. -/
theorem calculateConnectionScore_bounds (s : MatrixState) (t1 t2 : Triad)
    (hc : 0 < s.complexity) :
    0 ≤ calculateConnectionScore s t1 t2 ∧ calculateConnectionScore s t1 t2 ≤ 1 := by
  simp only [calculateConnectionScore]
  set d := calculateDistance t1.position t2.position with hd
  have hd0 : 0 ≤ d := Real.sqrt_nonneg _
  by_cases h : d > s.complexity
  · rw [if_pos h]
    exact ⟨le_refl 0, zero_le_one⟩
  · rw [if_neg h]
    constructor
    · exact le_max_left 0 _
    · apply max_le zero_le_one
      have : 0 ≤ d / s.complexity := div_nonneg hd0 (le_of_lt hc)
      linarith

/-- Helper: the average of a nonempty list of reals in `[0, 1]` lies in
`[0, 1]`. -/
theorem list_average_bounds (l : List ℝ) (hne : l ≠ [])
    (h : ∀ x ∈ l, 0 ≤ x ∧ x ≤ 1) :
    0 ≤ l.sum / (l.length : ℝ) ∧ l.sum / (l.length : ℝ) ≤ 1 := by
  have hlen : 0 < (l.length : ℝ) := by
    have : 0 < l.length := List.length_pos.mpr hne
    exact_mod_cast this
  have hsum0 : 0 ≤ l.sum := List.sum_nonneg (fun x hx => (h x hx).1)
  have hsum1 : l.sum ≤ (l.length : ℝ) := by
    have := List.sum_le_card_nsmul l 1 (fun x hx => (h x hx).2)
    simpa using this
  exact ⟨div_nonneg hsum0 (le_of_lt hlen), (div_le_one hlen).mpr hsum1⟩

/-- Helper: for a registered validator the consensus score lies in
`[0.7, 1]`. -/
theorem calculateConsensus_registered_bounds (s : MatrixState) (t : Triad) (vid : String)
    (hreg : vid ∈ s.validators) (hc : 0 < s.complexity) :
    0.7 ≤ calculateConsensus s t vid ∧ calculateConsensus s t vid ≤ 1 := by
  simp only [calculateConsensus]
  rw [if_pos hreg]
  by_cases hlen : (getTriadConnections s t).length > 0
  · rw [if_pos hlen]
    set scores := (getTriadConnections s t).map (fun conn =>
      if conn.validated then calculateConnectionScore s t conn
      else 0.5 * calculateConnectionScore s t conn) with hscores
    have hmem : ∀ x ∈ scores, 0 ≤ x ∧ x ≤ 1 := by
      intro x hx
      rw [hscores, List.mem_map] at hx
      obtain ⟨conn, _, hconn⟩ := hx
      have hb := calculateConnectionScore_bounds s t conn hc
      by_cases hv : conn.validated
      · rw [← hconn, if_pos hv]
        exact hb
      · rw [← hconn, if_neg hv]
        constructor
        · linarith [hb.1]
        · linarith [hb.2]
    have hne : scores ≠ [] := by
      rw [hscores]
      simp only [ne_eq, List.map_eq_nil]
      intro hnil
      rw [hnil] at hlen
      simp at hlen
    have havg := list_average_bounds scores hne hmem
    constructor
    · apply le_min (by norm_num)
      nlinarith [havg.1]
    · exact min_le_left 1 _
  · rw [if_neg hlen]
    constructor
    · apply le_min (by norm_num)
      norm_num
    · exact min_le_left 1 _

/-- C5: any registered validator's score lies in `[0.7, 1]`, so whenever
the threshold is at most `0.7` a single `validateTriad` call on an
unvalidated triad validates it on the first attempt. -/
theorem c5_registered_score_bounds (s : MatrixState) (tid vid : String) (t : Triad)
    (hreg : vid ∈ s.validators) (hc : 0 < s.complexity)
    (hthr : s.consensusThreshold ≤ 0.7)
    (hinit : s.isInitialized = true) (htid : tid ≠ "")
    (hdb : lookupAssoc s.dbTriads tid = some t) (hval : t.validated = false)
    (hv : validateValidator vid = .ok ()) :
    (0.7 ≤ calculateConsensus s t vid ∧ calculateConsensus s t vid ≤ 1) ∧
    validateTriad s tid vid =
      .ok ({ s with dbTriads := updateAssoc s.dbTriads tid ({ t with consensus := calculateConsensus s t vid, validationAttempts := t.validationAttempts + 1, validated := true }) },
           { t with consensus := calculateConsensus s t vid, validationAttempts := t.validationAttempts + 1, validated := true }) := by
  have hb := calculateConsensus_registered_bounds s t vid hreg hc
  refine ⟨hb, ?_⟩
  have hget : getTriadById s tid = .ok t := by
    simp [getTriadById, hinit, htid, hdb]
  simp only [validateTriad, hinit, hget, hv, hval]
  have hdec : decide (calculateConsensus s t vid ≥ s.consensusThreshold) = true := by
    simp only [decide_eq_true_eq, ge_iff_le]
    linarith [hb.1]
  rw [hdec]
  simp

/-- C5 witness: the concrete run on `stateOne` (threshold `0.67 ≤ 0.7`). -/
theorem c5_registered_score_bounds_witness :
    (0.7 ≤ calculateConsensus stateOne triadA "v2" ∧
      calculateConsensus stateOne triadA "v2" ≤ 1) ∧
    validateTriad stateOne "a" "v2" =
      .ok ({ stateOne with dbTriads := updateAssoc stateOne.dbTriads "a" ({ triadA with consensus := calculateConsensus stateOne triadA "v2", validationAttempts := triadA.validationAttempts + 1, validated := true }) },
           { triadA with consensus := calculateConsensus stateOne triadA "v2", validationAttempts := triadA.validationAttempts + 1, validated := true }) :=
  c5_registered_score_bounds stateOne "a" "v2" triadA
    (by simp [stateOne]) (by norm_num [stateOne]) (by norm_num [stateOne])
    rfl (by simp) rfl rfl rfl

/-! ### C6: DISCOVERY elicits a PEERS reply -/

/-- C6: a `DISCOVERY` envelope from a connected peer is answered on the
same connection with a `PEERS` envelope carrying the node's current peer
address list, which contains at least the node's own advertised address;
the state is unchanged and the connection stays open. -/
theorem c6_discovery_peers_reply (s : NodeState) (peerId : String) (pi : PeerInfo)
    (freshIds : List String) (now : ℕ)
    (hpeer : lookupAssoc s.peers peerId = some pi) :
    handleMessage s peerId .discovery freshIds now =
      { state := s, replies := [.peersMsg (getPeerAddresses s)], terminated := false } ∧
    s.advertisedAddress ∈ getPeerAddresses s := by
  constructor
  · simp [handleMessage, hpeer]
  · simp [getPeerAddresses]

/-- C6 witness: the concrete node `nodeOne`. -/
theorem c6_discovery_peers_reply_witness :
    handleMessage nodeOne "p1" .discovery [] 0 =
      { state := nodeOne, replies := [.peersMsg (getPeerAddresses nodeOne)],
        terminated := false } ∧
    nodeOne.advertisedAddress ∈ getPeerAddresses nodeOne :=
  c6_discovery_peers_reply nodeOne "p1" peerP1 [] 0 rfl

/-! ### C7: SYNC_LEDGER outcomes -/

/-- C7: on `SYNC_LEDGER` from a connected peer, with a ledger connection
present: if `isOpenForNewUsers()` is false the requester gets an `ERROR`
envelope (same connection, not terminated, single reply, the batch never
reaching `updateLedger` — the outcome is independent of it); if it is true
and the update succeeds the requester gets
`SYNC_LEDGER_CONFIRMATION{status: "success"}`; if the update fails the
requester gets an `ERROR` envelope carrying the underlying message. -/
theorem c7_sync_ledger_outcomes (s : NodeState) (peerId : String) (pi : PeerInfo)
    (conn : LedgerConnection) (d e : String) (freshIds : List String) (now : ℕ)
    (hpeer : lookupAssoc s.peers peerId = some pi)
    (hconn : s.dbConnection = some conn) :
    (conn.isOpenForNewUsers = false →
      handleMessage s peerId (.syncLedgerMsg d) freshIds now =
        { state := s, replies := [.errorMsg "Database is not open for new users"],
          terminated := false }) ∧
    (conn.isOpenForNewUsers = true → conn.updateLedger d = .ok () →
      handleMessage s peerId (.syncLedgerMsg d) freshIds now =
        { state := s, replies := [.syncLedgerConfirmation "success"],
          terminated := false }) ∧
    (conn.isOpenForNewUsers = true → conn.updateLedger d = .error e →
      handleMessage s peerId (.syncLedgerMsg d) freshIds now =
        { state := s, replies := [.errorMsg e], terminated := false }) := by
  refine ⟨?_, ?_, ?_⟩
  · intro hclosed
    simp [handleMessage, hpeer, hconn, syncLedger, hclosed]
  · intro hopen hupd
    simp [handleMessage, hpeer, hconn, syncLedger, hopen, hupd]
  · intro hopen hupd
    simp [handleMessage, hpeer, hconn, syncLedger, hopen, hupd]

/-- C7 witness: the three concrete ledger connections. -/
theorem c7_sync_ledger_outcomes_witness :
    handleMessage (nodeWithLedger ledgerClosed) "p1" (.syncLedgerMsg "batch") [] 0 =
      { state := nodeWithLedger ledgerClosed,
        replies := [.errorMsg "Database is not open for new users"],
        terminated := false } ∧
    handleMessage (nodeWithLedger ledgerOpenOk) "p1" (.syncLedgerMsg "batch") [] 0 =
      { state := nodeWithLedger ledgerOpenOk,
        replies := [.syncLedgerConfirmation "success"], terminated := false } ∧
    handleMessage (nodeWithLedger ledgerOpenFail) "p1" (.syncLedgerMsg "batch") [] 0 =
      { state := nodeWithLedger ledgerOpenFail,
        replies := [.errorMsg "update failed"], terminated := false } :=
  ⟨(c7_sync_ledger_outcomes (nodeWithLedger ledgerClosed) "p1" peerP1 ledgerClosed
      "batch" "x" [] 0 rfl rfl).1 rfl,
   (c7_sync_ledger_outcomes (nodeWithLedger ledgerOpenOk) "p1" peerP1 ledgerOpenOk
      "batch" "x" [] 0 rfl rfl).2.1 rfl rfl,
   (c7_sync_ledger_outcomes (nodeWithLedger ledgerOpenFail) "p1" peerP1 ledgerOpenFail
      "batch" "update failed" [] 0 rfl rfl).2.2 rfl rfl⟩

/-! ### C8: the peer set never exceeds maxPeers -/

/-- C8: an inbound connection at or above the cap is terminated without
being added; `connectToPeer` at or above the cap, or to an address already
connected, is a no-op; and each step of the connection state machine
(accept, connect, disconnect) preserves `peers.length ≤ maxPeers`. -/
theorem c8_max_peers_invariant (s : NodeState) (addr freshId pid : String) (now : ℕ)
    (hcap : s.peers.length ≤ s.maxPeers) :
    (s.peers.length ≥ s.maxPeers → handleNewConnection s freshId now = (s, false)) ∧
    (s.peers.length ≥ s.maxPeers → connectToPeer s addr freshId now = s) ∧
    (isConnectedTo s addr = true → connectToPeer s addr freshId now = s) ∧
    (handleNewConnection s freshId now).1.peers.length ≤ s.maxPeers ∧
    (connectToPeer s addr freshId now).peers.length ≤ s.maxPeers ∧
    (removePeer s pid).peers.length ≤ s.maxPeers := by
  refine ⟨?_, ?_, ?_, ?_, ?_, ?_⟩
  · intro hge
    simp [handleNewConnection, hge]
  · intro hge
    simp [connectToPeer, hge]
  · intro hconn
    by_cases hge : s.peers.length ≥ s.maxPeers
    · simp [connectToPeer, hge]
    · simp [connectToPeer, hge, hconn]
  · by_cases hge : s.peers.length ≥ s.maxPeers
    · simpa [handleNewConnection, hge] using hcap
    · have hlt : s.peers.length < s.maxPeers := lt_of_not_ge hge
      simp only [handleNewConnection, hge, if_false, addPeer]
      calc (updateAssoc s.peers freshId ⟨freshId, "incoming", none, now⟩).length
          ≤ s.peers.length + 1 := updateAssoc_length_le _ _ _
        _ ≤ s.maxPeers := hlt
  · by_cases hge : s.peers.length ≥ s.maxPeers
    · simpa [connectToPeer, hge] using hcap
    · by_cases hconn : isConnectedTo s addr
      · simpa [connectToPeer, hge, hconn] using hcap
      · have hlt : s.peers.length < s.maxPeers := lt_of_not_ge hge
        simp only [connectToPeer, hge, hconn, if_false, Bool.false_eq_true, addPeer]
        calc (updateAssoc s.peers freshId ⟨freshId, "outgoing", some addr, now⟩).length
            ≤ s.peers.length + 1 := updateAssoc_length_le _ _ _
          _ ≤ s.maxPeers := hlt
  · calc (removePeer s pid).peers.length
        ≤ s.peers.length := List.length_filter_le _ _
    _ ≤ s.maxPeers := hcap

/-- C8 witness: the saturated node `nodeFull` (cap 1, one peer). -/
theorem c8_max_peers_invariant_witness :
    handleNewConnection nodeFull "p2" 0 = (nodeFull, false) ∧
    connectToPeer nodeFull "ws://other" "p2" 0 = nodeFull ∧
    connectToPeer nodeFull "ws://peer1" "p2" 0 = nodeFull ∧
    (handleNewConnection nodeFull "p2" 0).1.peers.length ≤ nodeFull.maxPeers ∧
    (connectToPeer nodeFull "ws://other" "p2" 0).peers.length ≤ nodeFull.maxPeers ∧
    (removePeer nodeFull "p1").peers.length ≤ nodeFull.maxPeers := by
  have T1 := c8_max_peers_invariant nodeFull "ws://other" "p2" "p1" 0
    (by norm_num [nodeFull])
  have T2 := c8_max_peers_invariant nodeFull "ws://peer1" "p2" "p1" 0
    (by norm_num [nodeFull])
  exact ⟨T1.1 (by norm_num [nodeFull]), T1.2.1 (by norm_num [nodeFull]),
    T2.2.2.1 rfl, T1.2.2.2.1, T1.2.2.2.2.1, T1.2.2.2.2.2⟩

end SeirChain
